import Mathlib

/-!
Verification of the project-catalog data and its rendering contract,
embedded from `src/data/projectsData.ts`.
-/

/-- The `Project` record shape from `src/data/projectsData.ts` lines 1-6:
`title` and `description` are required strings, `href` and `imgSrc` are
optional strings. -/
structure Project where
  title : String
  description : String
  href : Option String := none
  imgSrc : Option String := none
  deriving DecidableEq, Repr

/-- The static catalog `projectsData` from `src/data/projectsData.ts`
lines 8-27, verbatim. -/
def projectsData : List Project := [
  { title := "Engausa Academy",
    description := "Engausa Academy is a multilingual e-learning platform (mobile & web) I single handedly built from scratch in 2022, for an Engausa Global Tech Hub. An Educational institution that offers skills development courses in areas such as Solar Energy System Installation, Electric Fencing, CCTV Camera Installation & Maintenance, Electric Wiring, Graphic Design, Animation and more. I also still maintain this project to this date.",
    imgSrc := some "/static/images/engausa-academy.jpeg",
    href := some "https://www.engausaacademy.com" },
  { title := "Sultan Film Factory",
    description := "Sultan Film Factory is a movie streaming app I built for an entertainment company that is based in Nigeria, and they needed a way to bring their films to a larger audience worldwide.",
    imgSrc := some "/static/images/sultan.jpg",
    href := some "https://play.google.com/store/apps/details?id=com.sultanfilmfactory.mobile" },
  { title := "Drf-Logto",
    description := "Open Source django app for integrating Logto Authentication with Django Rest Framework. Has support for JWT based authentication, support for Session auth coming soon. Currently under development, so use with caution.",
    imgSrc := some "/static/images/logto.jpg",
    href := some "https://github.com/housain-maina/drf-logto" }
]

/-- The catalog provider: the default export of `projectsData.ts`.
An invocation is modelled as application to `()`; the body is the static
list, so every invocation returns it unchanged and there is no state to
mutate. -/
def getProjects : Unit → List Project := fun _ => projectsData

/-- Modelled from the spec: the rendering layer's defined placeholder
image, shown when `imgSrc` is absent. The rendering component is not
under `src/`; the spec fixes only that a single default placeholder
exists, so its concrete path is chosen arbitrarily. -/
def placeholderImage : String := "/static/images/placeholder.png"

/-- Modelled from the spec: the observable result of rendering one
record: its title and description text, an optional hyperlink target
(`none` means the card is plain, non-clickable content), and the source
of the image shown. -/
structure RenderedCard where
  title : String
  description : String
  link : Option String
  image : String
  deriving DecidableEq, Repr

/-- Modelled from the spec: the per-record rendering contract. The card
shows the record's title and description; it links to `href` exactly when
`href` is present; it shows the image at `imgSrc` when present and the
defined placeholder otherwise. -/
def renderRecord (p : Project) : RenderedCard :=
  { title := p.title,
    description := p.description,
    link := p.href,
    image := p.imgSrc.getD placeholderImage }

/-- Modelled from the spec: the rendering layer iterates the catalog in
order, rendering each record into one card. -/
def renderCatalog (c : List Project) : List RenderedCard :=
  c.map renderRecord

/-- Modelled from the spec: the storage form of one record. The
serializer is not under `src/`; the spec's round-trip property speaks of
"its storage form", modelled here as a list of field-name/value pairs in
which the optional fields appear exactly when present. -/
def serializeRecord (p : Project) : List (String × String) :=
  [("title", p.title), ("description", p.description)]
    ++ (match p.href with | some h => [("href", h)] | none => [])
    ++ (match p.imgSrc with | some s => [("imgSrc", s)] | none => [])

/-- Modelled from the spec: the whole catalog serialized record by
record, in order. -/
def serializeCatalog (c : List Project) : List (List (String × String)) :=
  c.map serializeRecord

/-- Modelled from the spec: reloading one stored record. The required
fields must be present; the optional fields are taken when found. -/
def deserializeRecord (kv : List (String × String)) : Option Project :=
  match List.lookup "title" kv, List.lookup "description" kv with
  | some t, some d =>
      some { title := t, description := d,
             href := List.lookup "href" kv,
             imgSrc := List.lookup "imgSrc" kv }
  | _, _ => none

/-- Modelled from the spec: reloading the whole catalog; fails if any
record fails to reload. -/
def deserializeCatalog : List (List (String × String)) → Option (List Project)
  | [] => some []
  | r :: rs =>
      match deserializeRecord r, deserializeCatalog rs with
      | some p, some ps => some (p :: ps)
      | _, _ => none

/-- A shallow syntactic validity check for the URI/path strings of the
spec's invariant: non-empty, no spaces, and either a site-local absolute
path or an http(s) URL. -/
def isSyntacticallyValidRef (s : String) : Bool :=
  !s.data.isEmpty
    && s.data.all (fun c => c != ' ')
    && (List.isPrefixOf "/".data s.data
        || List.isPrefixOf "https://".data s.data
        || List.isPrefixOf "http://".data s.data)

/-- C1: the catalog provider takes no inputs beyond the trivial
invocation, always succeeds (it is a total pure function), has no side
effects, and returns the statically defined list `projectsData` unchanged
and identical on every invocation. -/
theorem getProjects_returns_static_list :
    (∀ u : Unit, getProjects u = projectsData) ∧
    (∀ u v : Unit, getProjects u = getProjects v) :=
  ⟨fun _ => rfl, fun _ _ => rfl⟩

/-- C2: every record of the catalog has a non-empty `title` and a
non-empty `description`. -/
theorem projects_title_description_nonempty :
    ∀ p ∈ projectsData, p.title ≠ "" ∧ p.description ≠ "" := by
  decide

/-- Witness for C2 at the first record of the catalog. -/
theorem projects_title_description_nonempty_witness :
    (projectsData.get ⟨0, by decide⟩).title ≠ "" ∧
    (projectsData.get ⟨0, by decide⟩).description ≠ "" :=
  projects_title_description_nonempty _ (projectsData.get_mem 0 (by decide))

/-- C3: rendering preserves input order: for every catalog and every
index `i`, the card at position `i` of the rendered output is exactly the
rendering of the record at index `i` of the source; and the provider
presents the records in their source-definition order. -/
theorem render_preserves_order :
    (∀ (c : List Project) (i : Nat),
        (renderCatalog c).get? i = (c.get? i).map renderRecord) ∧
    (∀ i : Nat, (getProjects ()).get? i = projectsData.get? i) :=
  ⟨fun c i => by simp [renderCatalog], fun _ => rfl⟩

/-- C4: a rendered card is a hyperlink exactly when `href` is present,
and when `href` is present the link target is exactly that string. -/
theorem render_link_iff_href :
    ∀ p : Project,
      ((renderRecord p).link = none ↔ p.href = none) ∧
      (∀ u : String, p.href = some u → (renderRecord p).link = some u) :=
  fun _ => ⟨Iff.rfl, fun _ h => h⟩

/-- Witness for C4 at the spec's example record, which carries an
`href`. -/
theorem render_link_iff_href_witness :
    (renderRecord
        { title := "Demo", description := "A demo project.",
          href := some "https://example.com", imgSrc := none }).link
      = some "https://example.com" :=
  (render_link_iff_href _).2 _ rfl

/-- C5: a rendered card shows the defined placeholder exactly when
`imgSrc` is absent, and otherwise shows the image at exactly the record's
`imgSrc` path. -/
theorem render_image_iff_imgSrc :
    ∀ p : Project,
      (p.imgSrc = none → (renderRecord p).image = placeholderImage) ∧
      (∀ s : String, p.imgSrc = some s → (renderRecord p).image = s) := by
  intro p
  refine ⟨fun h => ?_, fun s h => ?_⟩ <;> simp [renderRecord, h]

/-- Witness for C5: a record without `imgSrc` renders the placeholder,
and a record with `imgSrc` renders exactly that path. -/
theorem render_image_iff_imgSrc_witness :
    (renderRecord
        { title := "Demo", description := "A demo project.",
          href := some "https://example.com", imgSrc := none }).image
        = placeholderImage ∧
    (renderRecord
        { title := "A", description := "B",
          href := none, imgSrc := some "/static/images/x.png" }).image
        = "/static/images/x.png" :=
  ⟨(render_image_iff_imgSrc _).1 rfl, (render_image_iff_imgSrc _).2 _ rfl⟩

/-- C6: reloading the serialized catalog yields exactly the original
ordered sequence of records. -/
theorem catalog_serialize_round_trip :
    deserializeCatalog (serializeCatalog projectsData) = some projectsData := rfl

/-- C7: the titles of the catalog are pairwise distinct. -/
theorem projects_titles_unique :
    (projectsData.map Project.title).Nodup := by
  decide

/-- C8: every `href` and every `imgSrc` present in the catalog is a
syntactically valid URI or site-local path. -/
theorem projects_refs_valid :
    (projectsData.all fun p =>
        p.href.all isSyntacticallyValidRef
          && p.imgSrc.all isSyntacticallyValidRef) = true := by
  decide

/-- C9: the catalog has exactly three records, each carrying both
optional fields, so no rendered card is plain (non-linked) content and
none shows the placeholder image. -/
theorem projects_all_fields_present :
    projectsData.length = 3 ∧
    (projectsData.all fun p => p.href.isSome && p.imgSrc.isSome) = true ∧
    ((renderCatalog projectsData).all fun c =>
        c.link.isSome && (c.image != placeholderImage)) = true := by
  refine ⟨rfl, by decide, by decide⟩

/-- C10: in the concrete catalog every `imgSrc` begins with
"/static/images/" and every `href` begins with "https://". -/
theorem projects_ref_shapes :
    (projectsData.all fun p =>
        p.imgSrc.all (fun s => List.isPrefixOf "/static/images/".data s.data)
          && p.href.all (fun s => List.isPrefixOf "https://".data s.data)) = true := by
  decide
